import Mathlib

/-!
Verification of the laboratory-inventory backend (`backend/server.py`).

The embedding models the document store as in-memory lists carried in a `DB`
record, and each HTTP handler as a pure function returning `Except ApiError`.
Mongo `find_one({"id": x})` becomes `List.find?` on the id, `update_one`
updates the first matching record, `delete_one` removes the first matching
record, `insert_one` appends.  `datetime.utcnow()` values are passed in as an
explicit `now : Nat`; `uuid.uuid4()` values are passed in as explicit fresh
ids.  An `HTTPException` raised inside a handler becomes an `Except.error`,
which leaves the store untouched (the exception aborts the handler before any
write that textually follows it); an unhandled Python exception (such as the
`TypeError` from subscripting `None`) is modelled by `ApiError.internalError`
(FastAPI reports it as HTTP 500).
-/

/-- Role of a user, `UserRole` in `server.py` ("admin" or "user"). -/
inductive UserRole where
  | admin
  | user
deriving DecidableEq, Repr

/-- Status of a withdrawal request, `RequestStatus` in `server.py`. -/
inductive RequestStatus where
  | pending
  | approved
  | rejected
deriving DecidableEq, Repr

/-- User record (`User` model); only the fields the verified handlers read. -/
structure User where
  id : String
  employee_number : String
  role : UserRole
  full_name : String
deriving DecidableEq, Repr

/-- Inventory item (`InventoryItem` model); only the fields the verified
handlers read or write.  `quantity` is a Python `int`, hence `Int`. -/
structure InventoryItem where
  id : String
  item_name : String
  quantity : Int
  updated_at : Nat
deriving DecidableEq, Repr

/-- Withdrawal request (`WithdrawalRequest` model). -/
structure WithdrawalRequest where
  id : String
  item_id : String
  item_name : String
  requested_quantity : Int
  purpose : String
  requested_by : String
  requested_by_name : String
  status : RequestStatus
  admin_comments : Option String
  processed_by : Option String
  processed_at : Option Nat
  created_at : Nat
deriving DecidableEq, Repr

/-- Request body of `POST /withdrawal-requests` (`WithdrawalRequestCreate`). -/
structure WithdrawalRequestCreate where
  item_id : String
  requested_quantity : Int
  purpose : String
deriving DecidableEq, Repr

/-- Request body of `POST /withdrawal-requests/process`
(`WithdrawalRequestProcess`); `action` is a free-form string. -/
structure WithdrawalRequestProcess where
  request_id : String
  action : String
  comments : Option String
deriving DecidableEq, Repr

/-- The document store: the three collections the verified handlers touch. -/
structure DB where
  inventory : List InventoryItem
  withdrawal_requests : List WithdrawalRequest
  users : List User
deriving DecidableEq, Repr

/-- Error outcomes of a handler.  `notFound` is HTTP 404, `badRequest` is
HTTP 400 (each carrying the `detail` string of the `HTTPException`);
`internalError` models an unhandled Python exception, reported as HTTP 500. -/
inductive ApiError where
  | notFound (detail : String)
  | badRequest (detail : String)
  | internalError
deriving DecidableEq, Repr

/-- Mongo `update_one({"id": item_id}, {"$set": {"quantity": q,
"updated_at": now}})` on the inventory collection: rewrites the first item
whose id matches, leaves the rest unchanged. -/
def updateOneItemQuantity (items : List InventoryItem) (item_id : String)
    (q : Int) (now : Nat) : List InventoryItem :=
  match items with
  | [] => []
  | i :: rest =>
    if i.id = item_id then { i with quantity := q, updated_at := now } :: rest
    else i :: updateOneItemQuantity rest item_id q now

/-- Mongo `update_one({"id": request_id}, {"$set": update_data})` on the
withdrawal-request collection, where `update_data` sets status, admin
comments, processor identity and processed timestamp: rewrites the first
request whose id matches. -/
def updateOneRequest (reqs : List WithdrawalRequest) (request_id : String)
    (st : RequestStatus) (comments : Option String) (procBy : String)
    (now : Nat) : List WithdrawalRequest :=
  match reqs with
  | [] => []
  | r :: rest =>
    if r.id = request_id then
      { r with status := st, admin_comments := comments,
               processed_by := some procBy, processed_at := some now } :: rest
    else r :: updateOneRequest rest request_id st comments procBy now

/-- Mongo `delete_one({"id": user_id})` on the users collection: removes the
first user whose id matches. -/
def deleteOneUser (users : List User) (user_id : String) : List User :=
  match users with
  | [] => []
  | u :: rest =>
    if u.id = user_id then rest else u :: deleteOneUser rest user_id

/-- Detail string of the insufficient-stock `HTTPException` raised by
`create_withdrawal_request`. -/
def insufficientMsg (avail requested : Int) : String :=
  "Insufficient stock. Available: " ++ toString avail
    ++ ", Requested: " ++ toString requested

/-- Handler of `POST /withdrawal-requests` (`create_withdrawal_request` in
`server.py`): looks the item up, 404s if absent, 400s if the item quantity is
below the requested quantity, otherwise inserts a new pending request
denormalizing the item name and the requester identity. -/
def create_withdrawal_request (db : DB) (request_data : WithdrawalRequestCreate)
    (current_user : User) (newId : String) (now : Nat) :
    Except ApiError (DB × WithdrawalRequest) :=
  match db.inventory.find? (fun i => i.id = request_data.item_id) with
  | none => .error (.notFound "Item not found")
  | some item =>
    if item.quantity < request_data.requested_quantity then
      .error (.badRequest (insufficientMsg item.quantity request_data.requested_quantity))
    else
      let wr : WithdrawalRequest :=
        { id := newId
          item_id := request_data.item_id
          item_name := item.item_name
          requested_quantity := request_data.requested_quantity
          purpose := request_data.purpose
          requested_by := current_user.id
          requested_by_name := current_user.full_name
          status := .pending
          admin_comments := none
          processed_by := none
          processed_at := none
          created_at := now }
      .ok ({ db with withdrawal_requests := db.withdrawal_requests ++ [wr] }, wr)

/-- Comparison used by the Mongo sort `.sort("created_at", -1)`: newest
first. -/
def createdDesc (a b : WithdrawalRequest) : Prop :=
  b.created_at ≤ a.created_at

instance : DecidableRel createdDesc := fun _ _ => Nat.decLe _ _

instance : IsTotal WithdrawalRequest createdDesc :=
  ⟨fun a b => le_total b.created_at a.created_at⟩

instance : IsTrans WithdrawalRequest createdDesc :=
  ⟨fun _ _ _ hab hbc => le_trans hbc hab⟩

/-- Handler of `GET /withdrawal-requests` (`get_withdrawal_requests`): an
admin gets every request, anyone else only their own, both sorted by
`created_at` descending; `to_list(1000)` then caps the response at the first
1000 records of the sorted cursor. -/
def get_withdrawal_requests (db : DB) (current_user : User) :
    List WithdrawalRequest :=
  if current_user.role = UserRole.admin then
    (List.insertionSort createdDesc db.withdrawal_requests).take 1000
  else
    (List.insertionSort createdDesc
      (db.withdrawal_requests.filter (fun r => r.requested_by = current_user.id))).take 1000

/-- Handler of `POST /withdrawal-requests/process`
(`process_withdrawal_request`): 404 if the request id does not resolve, 400 if
the request is not pending; otherwise, when `action = "approve"`, the item is
re-fetched (subscripting the `None` of a vanished item raises, modelled as
`internalError`) and its quantity decremented with no sufficiency check, and
for any action the request record gets the new status (`approved` exactly when
the action is `"approve"`, else `rejected`) and the audit fields. -/
def process_withdrawal_request (db : DB) (process_data : WithdrawalRequestProcess)
    (admin : User) (now : Nat) : Except ApiError DB :=
  match db.withdrawal_requests.find? (fun r => r.id = process_data.request_id) with
  | none => .error (.notFound "Request not found")
  | some request =>
    if request.status ≠ RequestStatus.pending then
      .error (.badRequest "Request already processed")
    else
      let newStatus :=
        if process_data.action = "approve" then RequestStatus.approved
        else RequestStatus.rejected
      if process_data.action = "approve" then
        match db.inventory.find? (fun i => i.id = request.item_id) with
        | none => .error .internalError
        | some item =>
          let new_quantity := item.quantity - request.requested_quantity
          let inv2 := updateOneItemQuantity db.inventory request.item_id new_quantity now
          let reqs2 := updateOneRequest db.withdrawal_requests process_data.request_id
            newStatus process_data.comments admin.employee_number now
          .ok { db with inventory := inv2, withdrawal_requests := reqs2 }
      else
        let reqs2 := updateOneRequest db.withdrawal_requests process_data.request_id
          newStatus process_data.comments admin.employee_number now
        .ok { db with withdrawal_requests := reqs2 }

/-- Handler of `DELETE /users/{user_id}` (`delete_user`): 400 when an admin
targets their own record, otherwise `delete_one`; 404 when nothing was
deleted. -/
def delete_user (db : DB) (user_id : String) (admin : User) :
    Except ApiError DB :=
  if user_id = admin.id then
    .error (.badRequest "Cannot delete your own account")
  else if db.users.any (fun u => u.id = user_id) then
    .ok { db with users := deleteOneUser db.users user_id }
  else
    .error (.notFound "User not found")

/-- One client-visible operation of the withdrawal workflow: a submission of
a withdrawal request or a resolution of one. -/
inductive Op where
  | submit (data : WithdrawalRequestCreate) (user : User) (newId : String) (now : Nat)
  | process (data : WithdrawalRequestProcess) (admin : User) (now : Nat)
deriving DecidableEq, Repr

/-- Effect of one operation on the store: a handler that errors leaves the
store unchanged. -/
def runOp (db : DB) : Op → DB
  | .submit d u nid now =>
    match create_withdrawal_request db d u nid now with
    | .ok (db2, _) => db2
    | .error _ => db
  | .process d a now =>
    match process_withdrawal_request db d a now with
    | .ok db2 => db2
    | .error _ => db

/-- Effect of a sequence of operations, first operation first. -/
def runOps (db : DB) : List Op → DB
  | [] => db
  | op :: rest => runOps (runOp db op) rest

/-- Every item of the store has a nonnegative quantity. -/
def allQuantitiesNonneg (db : DB) : Bool :=
  db.inventory.all (fun i => decide (0 ≤ i.quantity))

/-- Sufficiency of one operation against the store it runs in: when the
operation is an approval that will reach the decrement (pending request
found, item found), the item's current quantity covers the request. -/
def approveSufficient (db : DB) : Op → Bool
  | .submit _ _ _ _ => true
  | .process d _ _ =>
    if d.action = "approve" then
      match db.withdrawal_requests.find? (fun r => r.id = d.request_id) with
      | none => true
      | some r =>
        if r.status = RequestStatus.pending then
          match db.inventory.find? (fun i => i.id = r.item_id) with
          | none => true
          | some i => decide (r.requested_quantity ≤ i.quantity)
        else true
    else true

/-- Sufficiency of every operation of a sequence, each judged against the
store state it actually runs in. -/
def approveSufficientAll (db : DB) : List Op → Bool
  | [] => true
  | op :: rest => approveSufficient db op && approveSufficientAll (runOp db op) rest

/-! ### Helper lemmas about the collection primitives -/

/-- Updating the quantity of the first item matching an id rewrites exactly
the record `find?` returns. -/
theorem find?_updateOneItemQuantity (items : List InventoryItem) (iid : String)
    (q : Int) (now : Nat) (i : InventoryItem)
    (h : items.find? (fun x => x.id = iid) = some i) :
    (updateOneItemQuantity items iid q now).find? (fun x => x.id = iid) =
      some { i with quantity := q, updated_at := now } := by
  induction items with
  | nil => simp at h
  | cons a rest ih =>
    by_cases ha : a.id = iid
    · rw [List.find?_cons_of_pos _ (by simp [ha])] at h
      cases h
      rw [updateOneItemQuantity, if_pos ha]
      exact List.find?_cons_of_pos _ (by simp [ha])
    · rw [List.find?_cons_of_neg _ (by simp [ha])] at h
      rw [updateOneItemQuantity, if_neg ha]
      rw [List.find?_cons_of_neg _ (by simp [ha])]
      exact ih h

/-- Updating the status and audit fields of the first request matching an id
rewrites exactly the record `find?` returns. -/
theorem find?_updateOneRequest (reqs : List WithdrawalRequest) (rid : String)
    (st : RequestStatus) (comments : Option String) (procBy : String) (now : Nat)
    (r : WithdrawalRequest)
    (h : reqs.find? (fun x => x.id = rid) = some r) :
    (updateOneRequest reqs rid st comments procBy now).find? (fun x => x.id = rid) =
      some { r with status := st, admin_comments := comments,
                    processed_by := some procBy, processed_at := some now } := by
  induction reqs with
  | nil => simp at h
  | cons a rest ih =>
    by_cases ha : a.id = rid
    · rw [List.find?_cons_of_pos _ (by simp [ha])] at h
      cases h
      rw [updateOneRequest, if_pos ha]
      exact List.find?_cons_of_pos _ (by simp [ha])
    · rw [List.find?_cons_of_neg _ (by simp [ha])] at h
      rw [updateOneRequest, if_neg ha]
      rw [List.find?_cons_of_neg _ (by simp [ha])]
      exact ih h

/-- A quantity update with a nonnegative new value keeps every quantity of
the collection nonnegative. -/
theorem updateOneItemQuantity_nonneg (items : List InventoryItem) (iid : String)
    (q : Int) (now : Nat) (h0 : ∀ i ∈ items, 0 ≤ i.quantity) (hq : 0 ≤ q) :
    ∀ i ∈ updateOneItemQuantity items iid q now, 0 ≤ i.quantity := by
  induction items with
  | nil => intro i hi; simp [updateOneItemQuantity] at hi
  | cons a rest ih =>
    intro i hi
    rw [updateOneItemQuantity] at hi
    by_cases ha : a.id = iid
    · rw [if_pos ha] at hi
      rcases List.mem_cons.mp hi with h | h
      · subst h; exact hq
      · exact h0 i (List.mem_cons_of_mem _ h)
    · rw [if_neg ha] at hi
      rcases List.mem_cons.mp hi with h | h
      · subst h; exact h0 _ (List.mem_cons_self _ _)
      · exact ih (fun j hj => h0 j (List.mem_cons_of_mem _ hj)) i h

/-- Deleting the first user matching an id shortens the collection by one
when a match exists. -/
theorem deleteOneUser_length (users : List User) (uid : String)
    (h : users.any (fun u => u.id = uid) = true) :
    (deleteOneUser users uid).length + 1 = users.length := by
  induction users with
  | nil => simp at h
  | cons a rest ih =>
    rw [deleteOneUser]
    by_cases ha : a.id = uid
    · rw [if_pos ha]; rfl
    · rw [if_neg ha]
      simp only [List.any_cons, Bool.or_eq_true, decide_eq_true_eq] at h
      rcases h with h | h
      · exact absurd h ha
      · simpa [List.length_cons] using ih h

/-- Deleting a user only removes records: everything remaining was there. -/
theorem deleteOneUser_subset (users : List User) (uid : String) :
    ∀ v ∈ deleteOneUser users uid, v ∈ users := by
  induction users with
  | nil => intro v hv; simp [deleteOneUser] at hv
  | cons a rest ih =>
    intro v hv
    rw [deleteOneUser] at hv
    by_cases ha : a.id = uid
    · rw [if_pos ha] at hv; exact List.mem_cons_of_mem _ hv
    · rw [if_neg ha] at hv
      rcases List.mem_cons.mp hv with h | h
      · subst h; exact List.mem_cons_self _ _
      · exact List.mem_cons_of_mem _ (ih v h)

/-- When user ids are unique, deleting the first match leaves no record with
the deleted id. -/
theorem deleteOneUser_no_match (users : List User) (uid : String)
    (hnd : (users.map User.id).Nodup) :
    ∀ v ∈ deleteOneUser users uid, v.id ≠ uid := by
  induction users with
  | nil => intro v hv; simp [deleteOneUser] at hv
  | cons a rest ih =>
    intro v hv
    rw [deleteOneUser] at hv
    rw [List.map_cons, List.nodup_cons] at hnd
    by_cases ha : a.id = uid
    · rw [if_pos ha] at hv
      intro hvid
      exact hnd.1 (ha ▸ hvid ▸ List.mem_map_of_mem _ hv)
    · rw [if_neg ha] at hv
      rcases List.mem_cons.mp hv with h | h
      · subst h; exact ha
      · exact ih hnd.2 v h

/-! ### Characterizations of the handlers -/

/-- A successful submission pins down everything: the item was found, its
quantity covered the request, and the new pending request was appended while
the inventory stayed untouched. -/
theorem create_ok_elim (db : DB) (d : WithdrawalRequestCreate) (u : User)
    (nid : String) (now : Nat) (db2 : DB) (wr : WithdrawalRequest)
    (h : create_withdrawal_request db d u nid now = .ok (db2, wr)) :
    ∃ i, db.inventory.find? (fun x => x.id = d.item_id) = some i ∧
      d.requested_quantity ≤ i.quantity ∧
      wr = { id := nid, item_id := d.item_id, item_name := i.item_name,
             requested_quantity := d.requested_quantity, purpose := d.purpose,
             requested_by := u.id, requested_by_name := u.full_name,
             status := .pending, admin_comments := none, processed_by := none,
             processed_at := none, created_at := now } ∧
      db2.inventory = db.inventory ∧
      db2.users = db.users ∧
      db2.withdrawal_requests = db.withdrawal_requests ++ [wr] := by
  unfold create_withdrawal_request at h
  split at h
  next hfind => exact absurd h (by simp)
  next i hfind =>
    split at h
    next hq => exact absurd h (by simp)
    next hq =>
      simp only [Except.ok.injEq, Prod.mk.injEq] at h
      obtain ⟨hdb, hwr⟩ := h
      subst hdb
      exact ⟨i, hfind, not_lt.mp hq, hwr.symm, rfl, rfl, by rw [hwr]⟩

/-- A failed submission leaves the store unchanged. -/
theorem runOp_submit_error (db : DB) (d : WithdrawalRequestCreate) (u : User)
    (nid : String) (now : Nat) (e : ApiError)
    (h : create_withdrawal_request db d u nid now = .error e) :
    runOp db (.submit d u nid now) = db := by
  rw [runOp, h]

/-- A failed resolution leaves the store unchanged. -/
theorem runOp_process_error (db : DB) (pd : WithdrawalRequestProcess)
    (a : User) (now : Nat) (e : ApiError)
    (h : process_withdrawal_request db pd a now = .error e) :
    runOp db (.process pd a now) = db := by
  rw [runOp, h]

/-- A successful resolution pins down everything: a pending request was
found, its record got the new status and audit fields, and the inventory was
decremented exactly when the action is the literal `"approve"`. -/
theorem process_ok_elim (db : DB) (pd : WithdrawalRequestProcess) (a : User)
    (now : Nat) (db2 : DB)
    (h : process_withdrawal_request db pd a now = .ok db2) :
    ∃ r, db.withdrawal_requests.find? (fun x => x.id = pd.request_id) = some r ∧
      r.status = .pending ∧
      db2.users = db.users ∧
      db2.withdrawal_requests = updateOneRequest db.withdrawal_requests
        pd.request_id
        (if pd.action = "approve" then .approved else .rejected)
        pd.comments a.employee_number now ∧
      ((pd.action = "approve" ∧
          ∃ i, db.inventory.find? (fun x => x.id = r.item_id) = some i ∧
            db2.inventory = updateOneItemQuantity db.inventory r.item_id
              (i.quantity - r.requested_quantity) now) ∨
        (pd.action ≠ "approve" ∧ db2.inventory = db.inventory)) := by
  unfold process_withdrawal_request at h
  split at h
  next hfind => exact absurd h (by simp)
  next r hfind =>
    split at h
    next hst => exact absurd h (by simp)
    next hst =>
      replace hst : r.status = RequestStatus.pending := not_not.mp hst
      split at h
      next hact =>
        split at h
        next hitem => exact absurd h (by simp)
        next i hitem =>
          simp only [Except.ok.injEq] at h
          subst h
          exact ⟨r, hfind, hst, rfl, by rw [if_pos hact],
            Or.inl ⟨hact, i, hitem, rfl⟩⟩
      next hact =>
        simp only [Except.ok.injEq] at h
        subst h
        exact ⟨r, hfind, hst, rfl, by rw [if_neg hact], Or.inr ⟨hact, rfl⟩⟩

/-- Bool and Prop readings of `allQuantitiesNonneg` agree. -/
theorem allQuantitiesNonneg_iff (db : DB) :
    allQuantitiesNonneg db = true ↔ ∀ i ∈ db.inventory, 0 ≤ i.quantity := by
  simp [allQuantitiesNonneg]

/-- One operation preserves nonnegativity of every quantity as long as it is
not an approval outrunning the item's current stock. -/
theorem runOp_preserves_nonneg (db : DB) (op : Op)
    (h0 : ∀ i ∈ db.inventory, 0 ≤ i.quantity)
    (hs : approveSufficient db op = true) :
    ∀ i ∈ (runOp db op).inventory, 0 ≤ i.quantity := by
  cases op with
  | submit d u nid now =>
    cases hc : create_withdrawal_request db d u nid now with
    | error e => rw [runOp_submit_error db d u nid now e hc]; exact h0
    | ok p =>
      obtain ⟨db2, wr⟩ := p
      have hrun : runOp db (.submit d u nid now) = db2 := by rw [runOp, hc]
      rw [hrun]
      obtain ⟨i, _, _, _, hinv, _, _⟩ := create_ok_elim db d u nid now db2 wr hc
      rw [hinv]; exact h0
  | process d a now =>
    cases hc : process_withdrawal_request db d a now with
    | error e => rw [runOp_process_error db d a now e hc]; exact h0
    | ok db2 =>
      have hrun : runOp db (.process d a now) = db2 := by rw [runOp, hc]
      rw [hrun]
      obtain ⟨r, hfind, hst, _, _, hbranch⟩ := process_ok_elim db d a now db2 hc
      rcases hbranch with ⟨hact, i, hitem, hinv⟩ | ⟨hact, hinv⟩
      · have hle : r.requested_quantity ≤ i.quantity := by
          rw [approveSufficient] at hs
          simp only [hact, hfind, hst, hitem, if_true, reduceIte] at hs
          simpa using hs
        rw [hinv]
        exact updateOneItemQuantity_nonneg db.inventory r.item_id _ now h0 (by omega)
      · rw [hinv]; exact h0

/-- Claim C1 (amended): after any sequence of submissions and resolutions in which
every approval is covered by the item's quantity at approval time, every
quantity stays nonnegative. -/
theorem quantity_nonneg_of_sufficient_approvals (db : DB) (ops : List Op)
    (h0 : allQuantitiesNonneg db = true)
    (hs : approveSufficientAll db ops = true) :
    allQuantitiesNonneg (runOps db ops) = true := by
  induction ops generalizing db with
  | nil => exact h0
  | cons op rest ih =>
    rw [approveSufficientAll, Bool.and_eq_true] at hs
    rw [runOps]
    exact ih (runOp db op) ((allQuantitiesNonneg_iff _).mpr
      (runOp_preserves_nonneg db op ((allQuantitiesNonneg_iff _).mp h0) hs.1)) hs.2

/-! ### Concrete stores used by witnesses and counterexamples -/

/-- Sample item with 15 units on hand, as in the acceptance scenario of the
specification. -/
def sampleItem : InventoryItem :=
  { id := "i1", item_name := "Gloves", quantity := 15, updated_at := 0 }

/-- Sample non-admin requester. -/
def sampleUser : User :=
  { id := "u1", employee_number := "EMP1", role := .user, full_name := "Alice" }

/-- Sample admin. -/
def sampleAdmin : User :=
  { id := "a1", employee_number := "ADMIN001", role := .admin, full_name := "Root" }

/-- Sample store: one item, no requests, the two users. -/
def sampleDb : DB :=
  { inventory := [sampleItem], withdrawal_requests := [], users := [sampleAdmin, sampleUser] }

/-- Two submissions of 10 units each against a 10-unit item, then two
approvals: each submission alone is covered, the two approvals are not. -/
def racingOps : List Op :=
  [ .submit { item_id := "i1", requested_quantity := 10, purpose := "run A" } sampleUser "r1" 1,
    .submit { item_id := "i1", requested_quantity := 10, purpose := "run B" } sampleUser "r2" 2,
    .process { request_id := "r1", action := "approve", comments := none } sampleAdmin 3,
    .process { request_id := "r2", action := "approve", comments := none } sampleAdmin 4 ]

/-- Store holding a single 10-unit item. -/
def racingDb : DB :=
  { inventory := [{ id := "i1", item_name := "Gloves", quantity := 10, updated_at := 0 }],
    withdrawal_requests := [], users := [sampleAdmin, sampleUser] }

/-- Claim C1 as stated is false: starting from a store whose only item holds
10 units, two submissions of 10 units each pass the submission-time check,
both approvals go through (both end `approved`), and the item ends at -10. -/
theorem overlapping_approvals_go_negative :
    allQuantitiesNonneg (runOps racingDb racingOps) = false ∧
    (runOps racingDb racingOps).withdrawal_requests.all
      (fun r => r.status = RequestStatus.approved) = true ∧
    (runOps racingDb racingOps).inventory.map (fun i => i.quantity) = [-10] := by
  refine ⟨by decide, by decide, by decide⟩

/-- Submission of 3 units followed by its approval, against the 15-unit
sample store. -/
def serialOps : List Op :=
  [ .submit { item_id := "i1", requested_quantity := 3, purpose := "assay" } sampleUser "r1" 1,
    .process { request_id := "r1", action := "approve", comments := some "ok" } sampleAdmin 2 ]

/-- Witness for claim C1 (amended): the sample store satisfies both
hypotheses for the serial submit-then-approve run, and every quantity stays
nonnegative. -/
theorem quantity_nonneg_of_sufficient_approvals_witness :
    allQuantitiesNonneg sampleDb = true ∧
    approveSufficientAll sampleDb serialOps = true ∧
    allQuantitiesNonneg (runOps sampleDb serialOps) = true :=
  ⟨by decide, by decide,
    quantity_nonneg_of_sufficient_approvals sampleDb serialOps (by decide) (by decide)⟩

/-- Claim C2: resolving a request whose status is not pending fails with
HTTP 400 "Request already processed" whatever the action string is, and the
store — request records and inventory alike — is unchanged, so a request
leaves `pending` at most once. -/
theorem process_terminal_request_fails (db : DB) (pd : WithdrawalRequestProcess)
    (a : User) (now : Nat) (r : WithdrawalRequest)
    (hfind : db.withdrawal_requests.find? (fun x => x.id = pd.request_id) = some r)
    (hst : r.status ≠ RequestStatus.pending) :
    process_withdrawal_request db pd a now =
      .error (.badRequest "Request already processed") ∧
    runOp db (.process pd a now) = db := by
  have hp : process_withdrawal_request db pd a now =
      .error (.badRequest "Request already processed") := by
    unfold process_withdrawal_request
    simp only [hfind]
    rw [if_pos hst]
  exact ⟨hp, runOp_process_error _ _ _ _ _ hp⟩

/-- Request already approved, for the C2 witness. -/
def approvedReq : WithdrawalRequest :=
  { id := "r1", item_id := "i1", item_name := "Gloves",
    requested_quantity := 3, purpose := "assay", requested_by := "u1",
    requested_by_name := "Alice", status := RequestStatus.approved,
    admin_comments := none, processed_by := some "ADMIN001",
    processed_at := some 2, created_at := 1 }

/-- Store whose only request is already approved, for the C2 witness. -/
def terminalDb : DB :=
  { inventory := [sampleItem], withdrawal_requests := [approvedReq],
    users := [sampleAdmin, sampleUser] }

/-- Witness for claim C2: in a store whose request "r1" is already approved,
a second approval fails with 400 and the store is unchanged. -/
theorem process_terminal_request_fails_witness :
    terminalDb.withdrawal_requests.find? (fun x => x.id = "r1") = some approvedReq ∧
    approvedReq.status ≠ RequestStatus.pending ∧
    (process_withdrawal_request terminalDb
        { request_id := "r1", action := "approve", comments := none }
        sampleAdmin 9 = .error (.badRequest "Request already processed") ∧
      runOp terminalDb
        (.process { request_id := "r1", action := "approve", comments := none }
          sampleAdmin 9) = terminalDb) :=
  ⟨by decide, by decide,
    process_terminal_request_fails terminalDb
      { request_id := "r1", action := "approve", comments := none }
      sampleAdmin 9 approvedReq (by decide) (by decide)⟩

/-- Claim C3: a submission whose item id does not resolve fails with 404
"Item not found", and one whose requested quantity strictly exceeds the
item's current quantity fails with 400 insufficient stock; in both cases the
store — the request collection in particular — is unchanged. -/
theorem create_request_failure_cases (db : DB) (d : WithdrawalRequestCreate)
    (u : User) (nid : String) (now : Nat) :
    (db.inventory.find? (fun x => x.id = d.item_id) = none →
      create_withdrawal_request db d u nid now = .error (.notFound "Item not found") ∧
      runOp db (.submit d u nid now) = db) ∧
    (∀ i, db.inventory.find? (fun x => x.id = d.item_id) = some i →
      i.quantity < d.requested_quantity →
      create_withdrawal_request db d u nid now =
        .error (.badRequest (insufficientMsg i.quantity d.requested_quantity)) ∧
      runOp db (.submit d u nid now) = db) := by
  constructor
  · intro hfind
    have hc : create_withdrawal_request db d u nid now =
        .error (.notFound "Item not found") := by
      unfold create_withdrawal_request
      simp only [hfind]
    exact ⟨hc, runOp_submit_error _ _ _ _ _ _ hc⟩
  · intro i hfind hq
    have hc : create_withdrawal_request db d u nid now =
        .error (.badRequest (insufficientMsg i.quantity d.requested_quantity)) := by
      unfold create_withdrawal_request
      simp only [hfind]
      rw [if_pos hq]
    exact ⟨hc, runOp_submit_error _ _ _ _ _ _ hc⟩

/-- Witness for claim C3: on the 15-unit sample store, submitting for a
nonexistent item 404s, and submitting 20 units of item "i1" is rejected with
the insufficient-stock message and persists nothing. -/
theorem create_request_failure_cases_witness :
    (sampleDb.inventory.find? (fun x => x.id = "ghost") = none ∧
      create_withdrawal_request sampleDb
        { item_id := "ghost", requested_quantity := 1, purpose := "p" }
        sampleUser "r1" 1 = .error (.notFound "Item not found")) ∧
    (sampleDb.inventory.find? (fun x => x.id = "i1") = some sampleItem ∧
      sampleItem.quantity < (20 : Int) ∧
      create_withdrawal_request sampleDb
        { item_id := "i1", requested_quantity := 20, purpose := "p" }
        sampleUser "r1" 1 = .error (.badRequest (insufficientMsg 15 20)) ∧
      runOp sampleDb
        (.submit { item_id := "i1", requested_quantity := 20, purpose := "p" }
          sampleUser "r1" 1) = sampleDb) :=
  ⟨⟨by decide,
      ((create_request_failure_cases sampleDb
        { item_id := "ghost", requested_quantity := 1, purpose := "p" }
        sampleUser "r1" 1).1 (by decide)).1⟩,
    ⟨by decide, by decide,
      (create_request_failure_cases sampleDb
        { item_id := "i1", requested_quantity := 20, purpose := "p" }
        sampleUser "r1" 1).2 sampleItem (by decide) (by decide)⟩⟩

/-- Claim C4: approving a pending request whose item exists yields a store in
which the request record carries status approved, the admin's comments, the
processor's employee number and the processed timestamp, and the item's
quantity is decremented by exactly the requested quantity with no sufficiency
check. -/
theorem process_approve_updates (db : DB) (pd : WithdrawalRequestProcess)
    (a : User) (now : Nat) (r : WithdrawalRequest) (i : InventoryItem)
    (hfind : db.withdrawal_requests.find? (fun x => x.id = pd.request_id) = some r)
    (hst : r.status = RequestStatus.pending)
    (hact : pd.action = "approve")
    (hitem : db.inventory.find? (fun x => x.id = r.item_id) = some i) :
    ∃ db2, process_withdrawal_request db pd a now = .ok db2 ∧
      db2.withdrawal_requests.find? (fun x => x.id = pd.request_id) =
        some { r with status := .approved, admin_comments := pd.comments,
                      processed_by := some a.employee_number,
                      processed_at := some now } ∧
      db2.inventory.find? (fun x => x.id = r.item_id) =
        some { i with quantity := i.quantity - r.requested_quantity,
                      updated_at := now } ∧
      db2.users = db.users := by
  have hp : process_withdrawal_request db pd a now = .ok
      { inventory := updateOneItemQuantity db.inventory r.item_id
          (i.quantity - r.requested_quantity) now,
        withdrawal_requests := updateOneRequest db.withdrawal_requests
          pd.request_id RequestStatus.approved pd.comments a.employee_number now,
        users := db.users } := by
    unfold process_withdrawal_request
    simp only [hfind, hitem, hact, hst]
    rw [if_neg (by simp)]
    simp
  refine ⟨_, hp, ?_, ?_, rfl⟩
  · exact find?_updateOneRequest _ _ _ _ _ _ _ hfind
  · exact find?_updateOneItemQuantity _ _ _ _ _ hitem

/-- Pending request for 3 units of item "i1", for witnesses. -/
def pendingReq3 : WithdrawalRequest :=
  { id := "r1", item_id := "i1", item_name := "Gloves",
    requested_quantity := 3, purpose := "assay", requested_by := "u1",
    requested_by_name := "Alice", status := RequestStatus.pending,
    admin_comments := none, processed_by := none, processed_at := none,
    created_at := 1 }

/-- Store with the 15-unit item and the pending request for 3 units. -/
def pendingDb : DB :=
  { inventory := [sampleItem], withdrawal_requests := [pendingReq3],
    users := [sampleAdmin, sampleUser] }

/-- Witness for claim C4, the acceptance scenario of the specification: item
at 15 with a pending request for 3; approving ends with the request approved
and the item at 12. -/
theorem process_approve_updates_witness :
    pendingDb.withdrawal_requests.find? (fun x => x.id = "r1") = some pendingReq3 ∧
    pendingReq3.status = RequestStatus.pending ∧
    pendingDb.inventory.find? (fun x => x.id = "i1") = some sampleItem ∧
    (∃ db2, process_withdrawal_request pendingDb
        { request_id := "r1", action := "approve", comments := some "ok" }
        sampleAdmin 7 = .ok db2 ∧
      db2.withdrawal_requests.find? (fun x => x.id = "r1") =
        some { pendingReq3 with status := .approved, admin_comments := some "ok",
                                processed_by := some "ADMIN001",
                                processed_at := some 7 } ∧
      db2.inventory.find? (fun x => x.id = "i1") =
        some { sampleItem with quantity := 12, updated_at := 7 } ∧
      db2.users = pendingDb.users) :=
  ⟨by decide, by decide, by decide,
    process_approve_updates pendingDb
      { request_id := "r1", action := "approve", comments := some "ok" }
      sampleAdmin 7 pendingReq3 sampleItem (by decide) (by decide) rfl (by decide)⟩

/-- Claim C5: rejecting a pending request records status rejected together
with the same audit fields approval writes (comments, processor, processed
timestamp), and the inventory collection is untouched. -/
theorem process_reject_updates (db : DB) (pd : WithdrawalRequestProcess)
    (a : User) (now : Nat) (r : WithdrawalRequest)
    (hfind : db.withdrawal_requests.find? (fun x => x.id = pd.request_id) = some r)
    (hst : r.status = RequestStatus.pending)
    (hact : pd.action = "reject") :
    ∃ db2, process_withdrawal_request db pd a now = .ok db2 ∧
      db2.withdrawal_requests.find? (fun x => x.id = pd.request_id) =
        some { r with status := .rejected, admin_comments := pd.comments,
                      processed_by := some a.employee_number,
                      processed_at := some now } ∧
      db2.inventory = db.inventory ∧
      db2.users = db.users := by
  have hp : process_withdrawal_request db pd a now = .ok
      { inventory := db.inventory,
        withdrawal_requests := updateOneRequest db.withdrawal_requests
          pd.request_id RequestStatus.rejected pd.comments a.employee_number now,
        users := db.users } := by
    unfold process_withdrawal_request
    simp only [hfind, hact, hst]
    rw [if_neg (by simp)]
    simp
  refine ⟨_, hp, ?_, rfl, rfl⟩
  exact find?_updateOneRequest _ _ _ _ _ _ _ hfind

/-- Witness for claim C5: rejecting the pending 3-unit request leaves the
15-unit item alone and marks the request rejected with the audit fields. -/
theorem process_reject_updates_witness :
    pendingDb.withdrawal_requests.find? (fun x => x.id = "r1") = some pendingReq3 ∧
    pendingReq3.status = RequestStatus.pending ∧
    (∃ db2, process_withdrawal_request pendingDb
        { request_id := "r1", action := "reject", comments := some "no stock" }
        sampleAdmin 7 = .ok db2 ∧
      db2.withdrawal_requests.find? (fun x => x.id = "r1") =
        some { pendingReq3 with status := .rejected,
                                admin_comments := some "no stock",
                                processed_by := some "ADMIN001",
                                processed_at := some 7 } ∧
      db2.inventory = pendingDb.inventory ∧
      db2.users = pendingDb.users) :=
  ⟨by decide, by decide,
    process_reject_updates pendingDb
      { request_id := "r1", action := "reject", comments := some "no stock" }
      sampleAdmin 7 pendingReq3 (by decide) (by decide) rfl⟩

/-- Claim C9 (implicit): an action string that is neither "approve" nor
"reject" passes no validation and is handled exactly like a reject: the
request ends rejected with the audit fields recorded and the inventory is
untouched. -/
theorem process_unknown_action_rejects (db : DB) (pd : WithdrawalRequestProcess)
    (a : User) (now : Nat) (r : WithdrawalRequest)
    (hfind : db.withdrawal_requests.find? (fun x => x.id = pd.request_id) = some r)
    (hst : r.status = RequestStatus.pending)
    (hact1 : pd.action ≠ "approve") (_hact2 : pd.action ≠ "reject") :
    ∃ db2, process_withdrawal_request db pd a now = .ok db2 ∧
      db2.withdrawal_requests.find? (fun x => x.id = pd.request_id) =
        some { r with status := .rejected, admin_comments := pd.comments,
                      processed_by := some a.employee_number,
                      processed_at := some now } ∧
      db2.inventory = db.inventory ∧
      db2.users = db.users := by
  have hp : process_withdrawal_request db pd a now = .ok
      { inventory := db.inventory,
        withdrawal_requests := updateOneRequest db.withdrawal_requests
          pd.request_id RequestStatus.rejected pd.comments a.employee_number now,
        users := db.users } := by
    unfold process_withdrawal_request
    simp only [hfind, hst]
    rw [if_neg (by simp)]
    rw [if_neg hact1, if_neg hact1]
  refine ⟨_, hp, ?_, rfl, rfl⟩
  exact find?_updateOneRequest _ _ _ _ _ _ _ hfind

/-- Witness for claim C9: the action "foo" on the pending 3-unit request is
handled like a reject. -/
theorem process_unknown_action_rejects_witness :
    pendingDb.withdrawal_requests.find? (fun x => x.id = "r1") = some pendingReq3 ∧
    pendingReq3.status = RequestStatus.pending ∧
    ("foo" : String) ≠ "approve" ∧ ("foo" : String) ≠ "reject" ∧
    (∃ db2, process_withdrawal_request pendingDb
        { request_id := "r1", action := "foo", comments := none }
        sampleAdmin 7 = .ok db2 ∧
      db2.withdrawal_requests.find? (fun x => x.id = "r1") =
        some { pendingReq3 with status := .rejected, admin_comments := none,
                                processed_by := some "ADMIN001",
                                processed_at := some 7 } ∧
      db2.inventory = pendingDb.inventory ∧
      db2.users = pendingDb.users) :=
  ⟨by decide, by decide, by decide, by decide,
    process_unknown_action_rejects pendingDb
      { request_id := "r1", action := "foo", comments := none }
      sampleAdmin 7 pendingReq3 (by decide) (by decide) (by decide) (by decide)⟩

/-- Claim C10 (implicit): approving a pending request whose item no longer
exists makes the item lookup come back empty, and subscripting that empty
result raises before any write — an unhandled error (HTTP 500) — so the
request stays pending and the store is unchanged. -/
theorem process_approve_missing_item_500 (db : DB) (pd : WithdrawalRequestProcess)
    (a : User) (now : Nat) (r : WithdrawalRequest)
    (hfind : db.withdrawal_requests.find? (fun x => x.id = pd.request_id) = some r)
    (hst : r.status = RequestStatus.pending)
    (hact : pd.action = "approve")
    (hitem : db.inventory.find? (fun x => x.id = r.item_id) = none) :
    process_withdrawal_request db pd a now = .error .internalError ∧
    runOp db (.process pd a now) = db := by
  have hp : process_withdrawal_request db pd a now = .error .internalError := by
    unfold process_withdrawal_request
    simp only [hfind, hact, hst, hitem]
    rw [if_neg (by simp)]
    simp
  exact ⟨hp, runOp_process_error _ _ _ _ _ hp⟩

/-- Store with the pending request but an empty inventory: the item was
deleted after submission. -/
def orphanDb : DB :=
  { inventory := [], withdrawal_requests := [pendingReq3],
    users := [sampleAdmin, sampleUser] }

/-- Witness for claim C10: approving the orphaned pending request errors out
and the store, the request still pending, is unchanged. -/
theorem process_approve_missing_item_500_witness :
    orphanDb.withdrawal_requests.find? (fun x => x.id = "r1") = some pendingReq3 ∧
    pendingReq3.status = RequestStatus.pending ∧
    orphanDb.inventory.find? (fun x => x.id = "i1") = none ∧
    (process_withdrawal_request orphanDb
        { request_id := "r1", action := "approve", comments := none }
        sampleAdmin 7 = .error .internalError ∧
      runOp orphanDb
        (.process { request_id := "r1", action := "approve", comments := none }
          sampleAdmin 7) = orphanDb) :=
  ⟨by decide, by decide, by decide,
    process_approve_missing_item_500 orphanDb
      { request_id := "r1", action := "approve", comments := none }
      sampleAdmin 7 pendingReq3 (by decide) (by decide) rfl (by decide)⟩

/-- Withdrawal request number k of the oversized store. -/
def bulkReq (k : Nat) : WithdrawalRequest :=
  { id := toString k, item_id := "i1", item_name := "Gloves",
    requested_quantity := 1, purpose := "p", requested_by := "u1",
    requested_by_name := "Alice", status := .pending, admin_comments := none,
    processed_by := none, processed_at := none, created_at := k }

/-- Store holding 1001 requests, one more than the response cap. -/
def bulkDb : DB :=
  { inventory := [sampleItem],
    withdrawal_requests := (List.range 1001).map bulkReq,
    users := [sampleAdmin, sampleUser] }

/-- Claim C6 as stated is false: `to_list(1000)` caps the response, so an
admin listing a store of 1001 requests receives only 1000 of them — not a
permutation of all requests. -/
theorem listing_truncates_at_1000 :
    bulkDb.withdrawal_requests.length = 1001 ∧
    (get_withdrawal_requests bulkDb sampleAdmin).length = 1000 ∧
    ¬ (get_withdrawal_requests bulkDb sampleAdmin).Perm
        bulkDb.withdrawal_requests := by
  have h1 : bulkDb.withdrawal_requests.length = 1001 := by
    simp [bulkDb]
  have h2 : (get_withdrawal_requests bulkDb sampleAdmin).length = 1000 := by
    rw [get_withdrawal_requests,
      if_pos (show sampleAdmin.role = UserRole.admin from rfl), List.length_take,
      (List.perm_insertionSort createdDesc _).length_eq, h1]
    decide
  refine ⟨h1, h2, fun h => ?_⟩
  have hlen := h.length_eq
  rw [h1, h2] at hlen
  exact absurd hlen (by decide)

/-- Claim C6 (amended): listing withdrawal requests is role-scoped — all
requests for an admin, exactly their own for anyone else — and sorted
newest-first on the creation timestamp, with the response capped at 1000
records; whenever at most 1000 requests are in scope (the cap not reached),
the output is a permutation of the whole scoped set. -/
theorem get_withdrawal_requests_sorted_scoped (db : DB) (u : User)
    (hlen : (if u.role = UserRole.admin then db.withdrawal_requests
      else db.withdrawal_requests.filter
        (fun r => r.requested_by = u.id)).length ≤ 1000) :
    List.Sorted createdDesc (get_withdrawal_requests db u) ∧
    (get_withdrawal_requests db u).Perm
      (if u.role = UserRole.admin then db.withdrawal_requests
        else db.withdrawal_requests.filter (fun r => r.requested_by = u.id)) := by
  unfold get_withdrawal_requests
  by_cases h : u.role = UserRole.admin
  · rw [if_pos h] at hlen
    rw [if_pos h, if_pos h]
    refine ⟨List.Pairwise.sublist (List.take_sublist _ _)
      (List.sorted_insertionSort _ _), ?_⟩
    rw [List.take_of_length_le
      (by rw [(List.perm_insertionSort createdDesc _).length_eq]; exact hlen)]
    exact List.perm_insertionSort _ _
  · rw [if_neg h] at hlen
    rw [if_neg h, if_neg h]
    refine ⟨List.Pairwise.sublist (List.take_sublist _ _)
      (List.sorted_insertionSort _ _), ?_⟩
    rw [List.take_of_length_le
      (by rw [(List.perm_insertionSort createdDesc _).length_eq]; exact hlen)]
    exact List.perm_insertionSort _ _

/-- Witness for claim C6 (amended): the one-request store is far below the
cap, and the admin listing of it is sorted and a permutation of the whole
collection. -/
theorem get_withdrawal_requests_sorted_scoped_witness :
    (if sampleAdmin.role = UserRole.admin then pendingDb.withdrawal_requests
      else pendingDb.withdrawal_requests.filter
        (fun r => r.requested_by = sampleAdmin.id)).length ≤ 1000 ∧
    (List.Sorted createdDesc (get_withdrawal_requests pendingDb sampleAdmin) ∧
      (get_withdrawal_requests pendingDb sampleAdmin).Perm
        (if sampleAdmin.role = UserRole.admin then pendingDb.withdrawal_requests
          else pendingDb.withdrawal_requests.filter
            (fun r => r.requested_by = sampleAdmin.id))) :=
  ⟨by decide,
    get_withdrawal_requests_sorted_scoped pendingDb sampleAdmin (by decide)⟩

/-- Claim C7 as stated is false: no positivity validation exists, so a
submission of 0 units (and likewise of -3 units) against the 15-unit item
is accepted and a request with nonpositive requested quantity is
persisted. -/
theorem create_accepts_nonpositive_quantity :
    (runOp sampleDb (.submit
        { item_id := "i1", requested_quantity := 0, purpose := "p" }
        sampleUser "r1" 1)).withdrawal_requests.map
      (fun r => r.requested_quantity) = [0] ∧
    (runOp sampleDb (.submit
        { item_id := "i1", requested_quantity := -3, purpose := "p" }
        sampleUser "r1" 1)).withdrawal_requests.map
      (fun r => r.requested_quantity) = [-3] :=
  ⟨by decide, by decide⟩

/-- Claim C7 (amended): every accepted submission persists exactly one new
request whose requested quantity equals the submitted integer and is at most
the item's quantity at submission time; zero and negative quantities are not
rejected. -/
theorem persisted_request_quantity_bounded (db : DB) (d : WithdrawalRequestCreate)
    (u : User) (nid : String) (now : Nat) (db2 : DB) (wr : WithdrawalRequest)
    (h : create_withdrawal_request db d u nid now = .ok (db2, wr)) :
    ∃ i, db.inventory.find? (fun x => x.id = d.item_id) = some i ∧
      wr.requested_quantity = d.requested_quantity ∧
      wr.requested_quantity ≤ i.quantity ∧
      db2.withdrawal_requests = db.withdrawal_requests ++ [wr] := by
  obtain ⟨i, hfind, hle, hwr, _, _, happ⟩ := create_ok_elim db d u nid now db2 wr h
  exact ⟨i, hfind, by rw [hwr], by rw [hwr]; exact hle, happ⟩

/-- Request produced by submitting 3 units against the sample store. -/
def submittedWr : WithdrawalRequest :=
  { id := "r9", item_id := "i1", item_name := "Gloves",
    requested_quantity := 3, purpose := "p", requested_by := "u1",
    requested_by_name := "Alice", status := .pending, admin_comments := none,
    processed_by := none, processed_at := none, created_at := 5 }

/-- Witness for claim C7 (amended): the 3-unit submission against the sample
store is accepted and the persisted quantity 3 is bounded by the stock 15. -/
theorem persisted_request_quantity_bounded_witness :
    create_withdrawal_request sampleDb
        { item_id := "i1", requested_quantity := 3, purpose := "p" }
        sampleUser "r9" 5 =
      .ok ({ sampleDb with withdrawal_requests := [submittedWr] }, submittedWr) ∧
    (∃ i, sampleDb.inventory.find? (fun x => x.id = "i1") = some i ∧
      submittedWr.requested_quantity = (3 : Int) ∧
      submittedWr.requested_quantity ≤ i.quantity ∧
      ({ sampleDb with withdrawal_requests := [submittedWr] } : DB).withdrawal_requests =
        sampleDb.withdrawal_requests ++ [submittedWr]) :=
  ⟨rfl, persisted_request_quantity_bounded sampleDb
    { item_id := "i1", requested_quantity := 3, purpose := "p" }
    sampleUser "r9" 5 _ _ rfl⟩

/-- Claim C8: an admin deleting their own record always gets HTTP 400 with
nothing removed, while deleting another existing user (ids being unique)
succeeds exactly once — one record fewer, all survivors pre-existing — and
repeating the same deletion gets 404. -/
theorem delete_user_once_then_404 (db : DB) (uid : String) (a : User) (u : User)
    (hnd : (db.users.map User.id).Nodup)
    (hu : u ∈ db.users) (hid : u.id = uid) :
    delete_user db a.id a = .error (.badRequest "Cannot delete your own account") ∧
    (uid ≠ a.id → ∃ db2, delete_user db uid a = .ok db2 ∧
      db2.users.length + 1 = db.users.length ∧
      (∀ v ∈ db2.users, v ∈ db.users) ∧
      delete_user db2 uid a = .error (.notFound "User not found")) := by
  constructor
  · rw [delete_user, if_pos rfl]
  · intro hne
    have hany : db.users.any (fun v => v.id = uid) = true := by
      simp only [List.any_eq_true, decide_eq_true_eq]
      exact ⟨u, hu, hid⟩
    have hok : delete_user db uid a =
        .ok { db with users := deleteOneUser db.users uid } := by
      rw [delete_user, if_neg hne, if_pos hany]
    refine ⟨_, hok, deleteOneUser_length _ _ hany, deleteOneUser_subset _ _, ?_⟩
    have hany2 : (deleteOneUser db.users uid).any (fun v => v.id = uid) = false := by
      rw [List.any_eq_false]
      intro v hv
      simp only [decide_eq_true_eq]
      exact deleteOneUser_no_match db.users uid hnd v hv
    rw [delete_user, if_neg hne, if_neg (by simp [hany2])]

/-- Witness for claim C8: on the sample store the admin cannot delete
themselves, and deleting the one standard user works once then 404s. -/
theorem delete_user_once_then_404_witness :
    (sampleDb.users.map User.id).Nodup ∧
    sampleUser ∈ sampleDb.users ∧
    ("u1" : String) ≠ sampleAdmin.id ∧
    (delete_user sampleDb sampleAdmin.id sampleAdmin =
        .error (.badRequest "Cannot delete your own account") ∧
      (∃ db2, delete_user sampleDb "u1" sampleAdmin = .ok db2 ∧
        db2.users.length + 1 = sampleDb.users.length ∧
        (∀ v ∈ db2.users, v ∈ sampleDb.users) ∧
        delete_user db2 "u1" sampleAdmin = .error (.notFound "User not found"))) :=
  ⟨by decide, by decide, by decide,
    ⟨(delete_user_once_then_404 sampleDb "u1" sampleAdmin sampleUser
        (by decide) (by decide) rfl).1,
      (delete_user_once_then_404 sampleDb "u1" sampleAdmin sampleUser
        (by decide) (by decide) rfl).2 (by decide)⟩⟩
